import Mathlib

/-!
Verification of the Book Catalog Service (`library_api`).

Shallow embedding of the request-handling and validation logic of
`src/index.js` together with the data model of `src/models/Book.js`.
The MongoDB/Mongoose store is modelled as an in-memory list of stored
records; the handlers are translated route by route.  Every definition
notes the source location it embeds.
-/

namespace LibraryApi

/-! ## JavaScript primitives used by the routes -/

/-- Characters treated as leading whitespace by JavaScript `parseInt`
(the common ASCII subset; the routes are never called with the exotic
Unicode space characters). -/
def isJsSpace (c : Char) : Bool :=
  c == ' ' || c == '\t' || c == '\n' || c == '\r' ||
  c == Char.ofNat 11 || c == Char.ofNat 12

/-- Value of a decimal digit character, `none` on a non-digit. -/
def decDigitVal (c : Char) : Option Nat :=
  if c.isDigit then some (c.toNat - 48) else none

/-- Value of a hexadecimal digit character, `none` otherwise. -/
def hexDigitVal (c : Char) : Option Nat :=
  if c.isDigit then some (c.toNat - 48)
  else if 'a' ≤ c && c ≤ 'f' then some (c.toNat - 87)
  else if 'A' ≤ c && c ≤ 'F' then some (c.toNat - 55)
  else none

/-- Greedy accumulation of further digits; stops at the first non-digit,
as JavaScript `parseInt` does. -/
def parseDigitsAcc (digitVal : Char → Option Nat) (base : Nat) :
    List Char → Nat → Nat
  | [], acc => acc
  | c :: cs, acc =>
    match digitVal c with
    | none => acc
    | some d => parseDigitsAcc digitVal base cs (acc * base + d)

/-- Parse a non-empty run of leading digits; `none` when the first
character is not a digit (JavaScript `NaN`). -/
def parseDigits (digitVal : Char → Option Nat) (base : Nat) :
    List Char → Option Nat
  | [] => none
  | c :: cs =>
    match digitVal c with
    | none => none
    | some d => some (parseDigitsAcc digitVal base cs d)

/-- JavaScript `parseInt(x)` on a query value: `none` models `NaN`
(missing parameter, or no leading digits).  Leading whitespace is
skipped, an optional sign is honoured, and a `0x`/`0X` prefix switches
to hexadecimal, exactly as in the ECMAScript algorithm. -/
def parseIntJS (q : Option String) : Option Int :=
  match q with
  | none => none
  | some s =>
    let cs := s.toList.dropWhile isJsSpace
    let signed : Int × List Char :=
      match cs with
      | '+' :: r => (1, r)
      | '-' :: r => (-1, r)
      | _ => (1, cs)
    let body : Option Nat :=
      match signed.2 with
      | '0' :: 'x' :: r => parseDigits hexDigitVal 16 r
      | '0' :: 'X' :: r => parseDigits hexDigitVal 16 r
      | r => parseDigits decDigitVal 10 r
    body.map (fun n => signed.1 * (n : Int))

/-- JavaScript `v || d` on a number `v` that may be `NaN` (`none`):
`NaN` and `0` (and `-0`) are falsy and give the default. -/
def jsOrDefault (v : Option Int) (d : Int) : Int :=
  match v with
  | none => d
  | some n => if n = 0 then d else n

/-- Effective `page` of the list route: `parseInt(req.query.page) || 1`
(src/index.js line 226). -/
def effPage (q : Option String) : Int :=
  jsOrDefault (parseIntJS q) 1

/-- Effective `limit` of the list route: `parseInt(req.query.limit) || 10`
(src/index.js line 227). -/
def effLimit (q : Option String) : Int :=
  jsOrDefault (parseIntJS q) 10

/-- The whitespace trimming performed by the Mongoose `trim: true`
setter (JavaScript `String.prototype.trim`, ASCII subset). -/
def trimChars (l : List Char) : List Char :=
  ((l.dropWhile isJsSpace).reverse.dropWhile isJsSpace).reverse

/-- Trim a string as the schema's `trim: true` option does. -/
def jsTrim (s : String) : String :=
  String.mk (trimChars s.toList)

/-! ## Data model (src/models/Book.js) -/

/-- A parsed JSON request body for the book routes.  Every field is
optional because `PUT` sends partial documents.  `JSON` numbers are
modelled as rationals (`publishedYear`/`stockCount` carry no
integrality constraint in the schema).  Both the spelling `isbn` and
the spelling `ISBN` are modelled, because a client may send either
key; the schema path is `ISBN`, and Mongoose strict mode silently
drops the unknown key `isbn`. -/
structure BookPayload where
  title : Option String := none
  author : Option String := none
  genre : Option String := none
  publishedYear : Option Rat := none
  isbn : Option String := none
  ISBN : Option String := none
  stockCount : Option Rat := none
deriving DecidableEq

/-- A Book record as stored by the database: the five schema fields
plus the store-assigned `_id` (here `id`) and the `timestamps: true`
pair `createdAt`/`updatedAt` (modelled as abstract clock readings). -/
structure StoredBook where
  id : String
  title : String
  author : String
  genre : String
  publishedYear : Rat
  ISBN : String
  stockCount : Rat
  createdAt : Nat
  updatedAt : Nat
deriving DecidableEq

/-- The document store: the list of stored records in natural
(insertion) order, plus a counter from which fresh `ObjectId`s are
minted. -/
structure StoreState where
  books : List StoredBook
  nextId : Nat
deriving DecidableEq

/-- Hexadecimal digit characters `0`-`9a-f`. -/
def hexChar (n : Nat) : Char :=
  if n < 10 then Char.ofNat (48 + n) else Char.ofNat (87 + n % 16)

/-- The fresh 24-character hexadecimal `ObjectId` assigned to the
`n`-th created record. -/
def idOfNat (n : Nat) : String :=
  String.mk ((List.range 24).map (fun i => hexChar (n / 16 ^ (23 - i) % 16)))

/-- Mongoose's id-format check (`ObjectId` cast): a 24-character
hexadecimal string.  (Mongoose also casts 12-byte buffers, which
cannot arrive through a URL path parameter.) -/
def isValidObjectId (s : String) : Bool :=
  s.length == 24 &&
    s.toList.all (fun c => c.isDigit ||
      ('a' ≤ c && c ≤ 'f') || ('A' ≤ c && c ≤ 'F'))

/-- Validate a required `String` schema path on the full document:
the `trim: true` setter runs first, then `required: true`, which for
strings demands a non-empty value.  Returns the stored (trimmed)
value on success. -/
def validReqString (o : Option String) : Option String :=
  match o with
  | none => none
  | some s => let t := jsTrim s; if t = "" then none else some t

/-- Validate a required `Number` schema path with `min: 0`. -/
def validReqNum (o : Option Rat) : Option Rat :=
  match o with
  | none => none
  | some x => if 0 ≤ x then some x else none

/-! ## Result types, one per route, with their HTTP status codes -/

/-- Outcome of `POST /books` (src/index.js lines 168-182). -/
inductive CreateResult where
  | created (b : StoredBook)
  | validationError
  | duplicateIsbn
deriving DecidableEq

/-- Status code the create handler sends. -/
def CreateResult.status : CreateResult → Nat
  | .created _ => 201
  | .validationError => 400
  | .duplicateIsbn => 400

/-- The success body of `GET /books` (src/index.js lines 238-243). -/
structure ListRecord where
  page : Int
  totalPages : Int
  totalBooks : Nat
  books : List StoredBook
deriving DecidableEq

/-- Outcome of `GET /books`: the handler can only answer 200 with a
`ListRecord` or fall into the catch-all 500; it has no 4xx branch. -/
inductive ListResult where
  | ok (r : ListRecord)
  | serverError
deriving DecidableEq

/-- Status code the list handler sends. -/
def ListResult.status : ListResult → Nat
  | .ok _ => 200
  | .serverError => 500

/-- Outcome of `GET /books/:id` (src/index.js lines 274-288). -/
inductive GetResult where
  | ok (b : StoredBook)
  | notFound
  | invalidId
  | serverError
deriving DecidableEq

/-- Status code the get-by-id handler sends. -/
def GetResult.status : GetResult → Nat
  | .ok _ => 200
  | .notFound => 404
  | .invalidId => 400
  | .serverError => 500

/-- Outcome of `PUT /books/:id` (src/index.js lines 321-340).  A
malformed id raises a `CastError`, which is neither a
`ValidationError` nor code 11000, so it falls into the generic 500
branch. -/
inductive UpdateResult where
  | updated (b : StoredBook)
  | notFound
  | validationError
  | duplicateIsbn
  | serverError
deriving DecidableEq

/-- Status code the update handler sends. -/
def UpdateResult.status : UpdateResult → Nat
  | .updated _ => 200
  | .notFound => 404
  | .validationError => 400
  | .duplicateIsbn => 400
  | .serverError => 500

/-- Outcome of `DELETE /books/:id` (src/index.js lines 361-371); its
catch branch maps every error, including the malformed-id cast
failure, to 500. -/
inductive DeleteResult where
  | deleted
  | notFound
  | serverError
deriving DecidableEq

/-- Status code the delete handler sends. -/
def DeleteResult.status : DeleteResult → Nat
  | .deleted => 200
  | .notFound => 404
  | .serverError => 500

/-! ## Handlers -/

/-- `POST /books` (src/index.js lines 168-182 with the schema of
src/models/Book.js): build a document from the body along the schema
paths (`ISBN`, not `isbn`; strict mode drops unknown keys), run the
validators, then hit the unique index on `ISBN`; on success the store
assigns `_id` and the `createdAt`/`updatedAt` timestamps. -/
def createBook (st : StoreState) (now : Nat) (p : BookPayload) :
    CreateResult × StoreState :=
  match validReqString p.title, validReqString p.author,
      validReqString p.genre, validReqNum p.publishedYear,
      validReqString p.ISBN, validReqNum p.stockCount with
  | some t, some a, some g, some y, some i, some s =>
    if st.books.any (fun b => b.ISBN == i) then (.duplicateIsbn, st)
    else
      let b : StoredBook :=
        { id := idOfNat st.nextId, title := t, author := a, genre := g,
          publishedYear := y, ISBN := i, stockCount := s,
          createdAt := now, updatedAt := now }
      (.created b, { books := st.books ++ [b], nextId := st.nextId + 1 })
  | _, _, _, _, _, _ => (.validationError, st)

/-- `GET /books/:id` (src/index.js lines 274-288): `findById` first
casts the id (failure → `CastError` with kind `ObjectId` → 400), then
looks the record up (missing → 404). -/
def getById (st : StoreState) (id : String) : GetResult :=
  if isValidObjectId id then
    match st.books.find? (fun b => b.id == id) with
    | some b => .ok b
    | none => .notFound
  else .invalidId

/-- Lexicographic comparison of character lists by code point — the
order MongoDB's simple (binary, UTF-8) collation puts on strings,
since UTF-8 byte order coincides with code-point order. -/
def charListLE : List Char → List Char → Bool
  | [], _ => true
  | _ :: _, [] => false
  | a :: as, b :: bs =>
    if a < b then true
    else if b < a then false
    else charListLE as bs

/-- The ordering used by `.sort({ title: 1 })`: ascending titles. -/
def titleLE (a b : StoredBook) : Prop :=
  charListLE a.title.data b.title.data = true

instance : DecidableRel titleLE :=
  fun a b => inferInstanceAs (Decidable (charListLE a.title.data b.title.data = true))

/-- The title-ascending sort the store applies before `skip`/`limit`
(in a MongoDB `find`, `sort` is an option of the single command, so it
acts before the offset and the cap regardless of the chaining order in
the source). -/
def sortByTitle (l : List StoredBook) : List StoredBook :=
  l.insertionSort titleLE

/-- JavaScript `Math.ceil(n / l)` for a non-negative count `n` and a
non-zero integer `l`: exact real division followed by the ceiling (the
involved numbers are far below any float-rounding threshold), computed
here on integers via `⌈x⌉ = -⌊-x⌋`; the theorem for claim C5 proves
this equal to the rational ceiling `⌈n / l⌉`. -/
def mathCeilDiv (n : Nat) (l : Int) : Int :=
  if 0 < l then -((-(n : Int)) / l) else -((n : Int) / (-l))

/-- `GET /books` (src/index.js lines 224-247).  The store applies
`sort` first, then `skip`, then `limit`.  MongoDB rejects a negative
`skip` ("Skip value must be non-negative"), which the handler's catch
turns into a 500; a negative `limit` is documented driver behaviour
for "up to the absolute value, in a single batch", hence the
`Int.natAbs`. -/
def listBooks (st : StoreState) (pageq limitq : Option String) : ListResult :=
  let page := effPage pageq
  let limit := effLimit limitq
  let skip := (page - 1) * limit
  if skip < 0 then .serverError
  else
    .ok { page := page,
          totalPages := mathCeilDiv st.books.length limit,
          totalBooks := st.books.length,
          books := ((sortByTitle st.books).drop skip.toNat).take limit.natAbs }

/-- Does a partial update document pass the update validators?  With
`runValidators: true`, Mongoose validates exactly the paths being
`$set` (a plain object body is wrapped into `$set`; strict mode drops
the unknown key `isbn`): `required` fires on a path set to an empty
(post-trim) string, `min: 0` on a negative number. -/
def validPartial (p : BookPayload) : Bool :=
  (match p.title with | none => true | some s => jsTrim s ≠ "") &&
  (match p.author with | none => true | some s => jsTrim s ≠ "") &&
  (match p.genre with | none => true | some s => jsTrim s ≠ "") &&
  (match p.ISBN with | none => true | some s => jsTrim s ≠ "") &&
  (match p.publishedYear with | none => true | some y => 0 ≤ y) &&
  (match p.stockCount with | none => true | some x => 0 ≤ x)

/-- Merge the `$set` fields of a partial body onto a stored record
(string setters trim); `timestamps: true` refreshes `updatedAt` and
leaves `createdAt` alone. -/
def mergeBook (b : StoredBook) (p : BookPayload) (now : Nat) : StoredBook :=
  { b with
    title := (p.title.map jsTrim).getD b.title,
    author := (p.author.map jsTrim).getD b.author,
    genre := (p.genre.map jsTrim).getD b.genre,
    ISBN := (p.ISBN.map jsTrim).getD b.ISBN,
    publishedYear := p.publishedYear.getD b.publishedYear,
    stockCount := p.stockCount.getD b.stockCount,
    updatedAt := now }

/-- `PUT /books/:id` (src/index.js lines 321-340),
`findByIdAndUpdate(id, body, { new: true, runValidators: true })`.
Execution order in Mongoose: cast the id (failure → `CastError`, which
the catch maps to 500), run the update validators on the `$set` paths
(failure → `ValidationError` → 400, nothing written), then perform the
atomic find-and-update (missing → 404; unique-index conflict on a new
`ISBN` → error code 11000 → 400).  On success the stored record is
replaced by the merged one and returned (`new: true`). -/
def updateBook (st : StoreState) (now : Nat) (id : String) (p : BookPayload) :
    UpdateResult × StoreState :=
  if ¬ isValidObjectId id then (.serverError, st)
  else if ¬ validPartial p then (.validationError, st)
  else
    match st.books.find? (fun b => b.id == id) with
    | none => (.notFound, st)
    | some b =>
      let merged := mergeBook b p now
      if st.books.any (fun c => c.id ≠ id && c.ISBN == merged.ISBN) then
        (.duplicateIsbn, st)
      else
        (.updated merged,
         { st with books := st.books.map (fun c => if c.id == id then merged else c) })

/-- `DELETE /books/:id` (src/index.js lines 361-371),
`findByIdAndDelete`: a malformed id raises a `CastError`, and this
route's catch maps every error to 500; a missing record → 404. -/
def deleteBook (st : StoreState) (id : String) : DeleteResult × StoreState :=
  if ¬ isValidObjectId id then (.serverError, st)
  else
    match st.books.find? (fun b => b.id == id) with
    | none => (.notFound, st)
    | some _ => (.deleted, { st with books := st.books.filter (fun b => b.id ≠ id) })

/-! ## The search route and its regular-expression model

`GET /search` builds `new RegExp(query, 'i')` from the raw term and
runs it (unanchored, case-insensitive) against `title`, `author` and
`genre`.  The JavaScript pattern language is modelled on the fragment
the theorems need: patterns made of literal characters and the
metacharacter `.` (any character except a line terminator).  A pattern
containing any other metacharacter is modelled as failing to compile;
this is faithful for the unterminated group `"("` (a `SyntaxError` in
JavaScript, sending the handler into its catch branch), and no theorem
below concerns a metacharacter pattern that JavaScript would accept
(such as `"a*"`). -/

/-- One compiled token of the modelled regex fragment. -/
inductive RegexToken where
  | lit (c : Char)
  | dot
deriving DecidableEq

/-- The JavaScript regex metacharacters other than `.`. -/
def isRegexMeta (c : Char) : Bool :=
  c == '(' || c == ')' || c == '[' || c == ']' || c == '{' || c == '}' ||
  c == '*' || c == '+' || c == '?' || c == '|' || c == '^' || c == '$' ||
  c == '\\'

/-- Compile `new RegExp(pat, 'i')` within the modelled fragment:
literal characters and `.` compile to tokens; any other metacharacter
puts the pattern outside the fragment (`none`; for the patterns the
theorems use, such as `"("`, this is JavaScript's `SyntaxError`). -/
def compileRegex (pat : String) : Option (List RegexToken) :=
  if pat.toList.any isRegexMeta then none
  else some (pat.toList.map (fun c => if c = '.' then .dot else .lit c))

/-- Case-insensitive single-character match of one token (the `i` flag
canonicalises case; ASCII folding via `Char.toLower`).  `.` matches
any character except the four line terminators. -/
def tokMatch : RegexToken → Char → Bool
  | .lit c, d => c.toLower == d.toLower
  | .dot, d =>
    ¬ (d == '\n' || d == '\r' || d == Char.ofNat 0x2028 || d == Char.ofNat 0x2029)

/-- Do the tokens match a prefix of the character list? -/
def toksMatchAt : List RegexToken → List Char → Bool
  | [], _ => true
  | _ :: _, [] => false
  | t :: ts, c :: cs => tokMatch t c && toksMatchAt ts cs

/-- Unanchored regex search: the tokens match at some position. -/
def regexSearch (ts : List RegexToken) : List Char → Bool
  | [] => toksMatchAt ts []
  | c :: cs => toksMatchAt ts (c :: cs) || regexSearch ts cs

/-- Does the compiled pattern match somewhere in the string? -/
def regexTest (ts : List RegexToken) (s : String) : Bool :=
  regexSearch ts s.toList

/-- Outcome of `GET /search` (src/index.js lines 398-418). -/
inductive SearchResult where
  | ok (books : List StoredBook)
  | badRequest
  | serverError
deriving DecidableEq

/-- Status code the search handler sends. -/
def SearchResult.status : SearchResult → Nat
  | .ok _ => 200
  | .badRequest => 400
  | .serverError => 500

/-- `GET /search` (src/index.js lines 398-418): a falsy `query`
(missing or empty) short-circuits to 400; otherwise the term is
compiled as a regex (an invalid pattern throws, landing in the catch
branch → 500) and the store returns, in natural order, at most 10
records matching on `title`, `author` or `genre`. -/
def searchBooks (st : StoreState) (q : Option String) : SearchResult :=
  match q with
  | none => .badRequest
  | some term =>
    if term = "" then .badRequest
    else
      match compileRegex term with
      | none => .serverError
      | some ts =>
        .ok ((st.books.filter (fun b =>
          regexTest ts b.title || regexTest ts b.author ||
            regexTest ts b.genre)).take 10)

/-! ## The operations as one dispatcher over the store -/

/-- One incoming request to the six routes. -/
inductive Op where
  | create (now : Nat) (p : BookPayload)
  | list (pageq limitq : Option String)
  | get (id : String)
  | update (now : Nat) (id : String) (p : BookPayload)
  | delete (id : String)
  | search (q : Option String)

/-- The response of a request, tagged by route. -/
inductive Response where
  | create (r : CreateResult)
  | list (r : ListResult)
  | get (r : GetResult)
  | update (r : UpdateResult)
  | delete (r : DeleteResult)
  | search (r : SearchResult)
deriving DecidableEq

/-- Dispatch one request against the store, returning the response and
the store afterwards.  The three read routes never write: their
branches return the incoming state unchanged, exactly as the source
only ever calls `find`/`findById`/`countDocuments` there. -/
def runOp (op : Op) (st : StoreState) : Response × StoreState :=
  match op with
  | .create now p => let r := createBook st now p; (.create r.1, r.2)
  | .list pq lq => (.list (listBooks st pq lq), st)
  | .get id => (.get (getById st id), st)
  | .update now id p => let r := updateBook st now id p; (.update r.1, r.2)
  | .delete id => let r := deleteBook st id; (.delete r.1, r.2)
  | .search q => (.search (searchBooks st q), st)

/-! ## Spec-side matching predicate (refinement target for the search
claim)

The spec describes Search as "a case-insensitive substring match of
`term` against `title`, `author`, OR `genre`".  The following
definitions follow those words (literal substring occurrence after
case folding), to be compared with the handler's regex semantics. -/

/-- Is the first character list a prefix of the second? -/
def isPrefixAux : List Char → List Char → Bool
  | [], _ => true
  | _ :: _, [] => false
  | a :: as, b :: bs => a == b && isPrefixAux as bs

/-- Does the first character list occur contiguously inside the
second? -/
def substrAux (n : List Char) : List Char → Bool
  | [] => isPrefixAux n []
  | c :: cs => isPrefixAux n (c :: cs) || substrAux n cs

/-- Characters of a string, case-folded. -/
def toLowerList (s : String) : List Char :=
  s.toList.map Char.toLower

/-- The spec's matching notion: `needle` occurs as a case-insensitive
literal substring of `hay`. -/
def ciSubstring (needle hay : String) : Bool :=
  substrAux (toLowerList needle) (toLowerList hay)

/-- The result set the spec prescribes for Search: the stored books
matching the term as a literal substring on one of the three fields,
capped at 10, in store order. -/
def specSearchMatches (st : StoreState) (term : String) : List StoredBook :=
  (st.books.filter (fun b => ciSubstring term b.title ||
    ciSubstring term b.author || ciSubstring term b.genre)).take 10

/-- A search term in which every character is an ordinary literal:
no regex metacharacter and no `.`. -/
def isLiteralTerm (t : String) : Bool :=
  t.toList.all (fun c => ¬ (isRegexMeta c || c == '.'))

/-! ## Concrete fixtures used by witnesses and counterexamples -/

/-- The store with no records. -/
def emptyStore : StoreState := { books := [], nextId := 0 }

/-- The spec's example record, as the store holds it after a create at
clock 0 on the empty store. -/
def dune : StoredBook :=
  { id := idOfNat 0, title := "Dune", author := "Frank Herbert",
    genre := "Sci-Fi", publishedYear := 1965, ISBN := "9780441013593",
    stockCount := 3, createdAt := 0, updatedAt := 0 }

/-- The store holding exactly the `dune` record. -/
def st1 : StoreState := { books := [dune], nextId := 1 }

/-- The spec's example create payload, with the unique text field
under the spec's (and the Swagger documentation's) name `isbn`. -/
def dunePayloadLower : BookPayload :=
  { title := some "Dune", author := some "Frank Herbert",
    genre := some "Sci-Fi", publishedYear := some 1965,
    isbn := some "9780441013593", stockCount := some 3 }

/-- The same payload with the unique text field under the schema's
name `ISBN`. -/
def dunePayloadUpper : BookPayload :=
  { dunePayloadLower with isbn := none, ISBN := some "9780441013593" }

/-- The rational 1965.5 = 3931/2, built without `Rat` normalisation so
that concrete runs reduce in the kernel. -/
def halfRat : ℚ := ⟨3931, 2, by decide, by decide⟩

/-- The example payload with the non-integer published year 1965.5. -/
def halfPayload : BookPayload :=
  { dunePayloadUpper with publishedYear := some halfRat }

/-- A second record whose title sorts after `dune`. -/
def hobbit : StoredBook :=
  { id := idOfNat 1, title := "The Hobbit", author := "J.R.R. Tolkien",
    genre := "Fantasy", publishedYear := 1937, ISBN := "9780547928227",
    stockCount := 2, createdAt := 1, updatedAt := 1 }

/-- A store holding two records, inserted in non-alphabetical order of
title so that the list route's sort is exercised. -/
def st2 : StoreState := { books := [hobbit, dune], nextId := 2 }

/-- A partial update document with a negative `stockCount`. -/
def negPayload : BookPayload := { stockCount := some (-5) }

/-- Non-negativity of the two numeric fields of one stored record. -/
def bookNonneg (b : StoredBook) : Prop :=
  0 ≤ b.publishedYear ∧ 0 ≤ b.stockCount

/-- The data-model invariant on the store: no stored record has a
negative `publishedYear` or `stockCount`. -/
def storeNonneg (st : StoreState) : Prop :=
  ∀ b ∈ st.books, bookNonneg b

/-! ## Helper lemmas -/

theorem ceil_neg_floor (x : ℚ) : ⌈x⌉ = -⌊-x⌋ := by
  rw [Int.floor_neg]; ring

/-- The integer-level `Math.ceil` of the list route agrees with the
exact rational ceiling for every non-zero limit. -/
theorem mathCeilDiv_eq_ceil (n : Nat) (l : Int) (h : l ≠ 0) :
    mathCeilDiv n l = ⌈(n : ℚ) / (l : ℚ)⌉ := by
  unfold mathCeilDiv
  rcases lt_trichotomy 0 l with hl | hl | hl
  · rw [if_pos hl]
    have hcast : ((l.toNat : ℕ) : ℚ) = (l : ℚ) := by
      exact_mod_cast congrArg (fun z : ℤ => (z : ℚ)) (Int.toNat_of_nonneg hl.le)
    have hx : -((n : ℚ) / (l : ℚ)) = ((-(n : Int) : ℤ) : ℚ) / ((l.toNat : ℕ) : ℚ) := by
      rw [hcast]; push_cast; ring
    rw [ceil_neg_floor, hx, Rat.floor_intCast_div_natCast, Int.toNat_of_nonneg hl.le]
  · exact absurd hl.symm h
  · rw [if_neg (by omega)]
    have hnn : (0 : Int) ≤ -l := by omega
    have hcast : (((-l).toNat : ℕ) : ℚ) = ((-l : ℤ) : ℚ) := by
      exact_mod_cast congrArg (fun z : ℤ => (z : ℚ)) (Int.toNat_of_nonneg hnn)
    have hx : -((n : ℚ) / (l : ℚ)) = (((n : Int) : ℤ) : ℚ) / (((-l).toNat : ℕ) : ℚ) := by
      rw [hcast]; push_cast; rw [div_neg]
    rw [ceil_neg_floor, hx, Rat.floor_intCast_div_natCast, Int.toNat_of_nonneg hnn]

/-- `parseInt(x) || d` is never `0` when the default is not `0`. -/
theorem jsOrDefault_ne_zero (v : Option Int) (d : Int) (hd : d ≠ 0) :
    jsOrDefault v d ≠ 0 := by
  unfold jsOrDefault
  cases v with
  | none => exact hd
  | some n =>
    by_cases h : n = 0
    · simp [h, hd]
    · simp [h]

/-- The effective limit of the list route is never `0`. -/
theorem effLimit_ne_zero (q : Option String) : effLimit q ≠ 0 :=
  jsOrDefault_ne_zero _ _ (by decide)

/-- The effective page of the list route is never `0`. -/
theorem effPage_ne_zero (q : Option String) : effPage q ≠ 0 :=
  jsOrDefault_ne_zero _ _ (by decide)

/-! ## Claim C9: the effective limit is never zero -/

/-- Claim C9 (confirmed): for every List request the effective limit
is never `0` — a `limit` query value of `"0"` parses to the falsy `0`
and falls back to the default `10`, and likewise a `page` of `"0"`
falls back to `1` — so the `totalPages` computation never divides by
zero. -/
theorem claim9_limit_never_zero :
    ∀ q : Option String,
      effLimit q ≠ 0 ∧ effPage q ≠ 0 ∧
      effLimit (some "0") = 10 ∧ effPage (some "0") = 1 :=
  fun q => ⟨effLimit_ne_zero q, effPage_ne_zero q, by decide, by decide⟩

/-! ## Claim C10: the read routes never write -/

/-- Claim C10 (confirmed): the List, GetByID and Search operations
leave the store untouched for every input — their handlers only call
`find`/`findById`/`countDocuments` — so only Create, Update and
Delete can change stored state. -/
theorem claim10_reads_pure :
    ∀ (st : StoreState) (pq lq : Option String) (id : String)
      (q : Option String),
      (runOp (.list pq lq) st).2 = st ∧
      (runOp (.get id) st).2 = st ∧
      (runOp (.search q) st).2 = st :=
  fun _ _ _ _ _ => ⟨rfl, rfl, rfl⟩

/-! ## Claim C7: the three outcomes of GetByID -/

/-- Claim C7 (confirmed): for every identifier string, GetByID answers
exactly one of three ways — 200 with the record when a stored record
has that id, 404 "not found" when the id passes the store's format
check but no record has it, and 400 "invalid id", distinct from "not
found", when the id fails the format check. -/
theorem claim7_getById_trichotomy :
    ∀ (st : StoreState) (id : String),
      (getById st id = .invalidId ↔ isValidObjectId id = false) ∧
      (getById st id = .notFound ↔
        (isValidObjectId id = true ∧
          st.books.find? (fun b => b.id == id) = none)) ∧
      (∀ b, getById st id = .ok b ↔
        (isValidObjectId id = true ∧
          st.books.find? (fun c => c.id == id) = some b)) ∧
      getById st id ≠ .serverError ∧
      GetResult.status .invalidId = 400 ∧
      GetResult.status .notFound = 404 ∧
      (∀ b, GetResult.status (.ok b) = 200) := by
  intro st id
  unfold getById
  by_cases h : isValidObjectId id
  · cases hf : st.books.find? (fun b => b.id == id) <;>
      simp [h, hf, GetResult.status]
  · simp [h, GetResult.status]

/-! ## Claim C8: malformed ids give 500 on Delete and Update -/

/-- Claim C8 (confirmed): for every identifier failing the store's
id-format check, Delete and Update answer with the 500 server error
(their catch branches do not discriminate the cast failure), not the
400 "invalid id" that GetByID answers for the same identifier; only
the GetByID handler inspects the error kind. -/
theorem claim8_malformed_id_500 :
    ∀ (st : StoreState) (now : Nat) (id : String) (p : BookPayload),
      isValidObjectId id = false →
      deleteBook st id = (.serverError, st) ∧
      updateBook st now id p = (.serverError, st) ∧
      getById st id = .invalidId ∧
      (deleteBook st id).1.status = 500 ∧
      (updateBook st now id p).1.status = 500 ∧
      (getById st id).status = 400 := by
  intro st now id p h
  simp [deleteBook, updateBook, getById, h, DeleteResult.status,
    UpdateResult.status, GetResult.status]

/-- Witness for claim C8 at the concrete malformed identifier
`"abc"`. -/
theorem claim8_malformed_id_500_witness :
    deleteBook st1 "abc" = (.serverError, st1) ∧
    updateBook st1 5 "abc" negPayload = (.serverError, st1) ∧
    getById st1 "abc" = .invalidId ∧
    (deleteBook st1 "abc").1.status = 500 ∧
    (updateBook st1 5 "abc" negPayload).1.status = 500 ∧
    (getById st1 "abc").status = 400 :=
  claim8_malformed_id_500 st1 5 "abc" negPayload (by decide)

/-! ## Claim C6: update validation is atomic -/

/-- Claim C6 (confirmed): for every existing record and every partial
update document that violates a validation constraint (for example a
negative `stockCount`), Update answers with the 400 validation client
error and the store is returned unchanged — `runValidators: true`
rejects before `findByIdAndUpdate` writes anything. -/
theorem claim6_update_validation_atomic :
    ∀ (st : StoreState) (now : Nat) (id : String) (p : BookPayload),
      isValidObjectId id = true →
      (∃ b ∈ st.books, b.id = id) →
      validPartial p = false →
      updateBook st now id p = (.validationError, st) ∧
      (updateBook st now id p).1.status = 400 := by
  intro st now id p hid _ hp
  simp [updateBook, hid, hp, UpdateResult.status]

/-- Witness for claim C6: updating the stored `dune` record with a
negative `stockCount` on the one-record store. -/
theorem claim6_update_validation_atomic_witness :
    updateBook st1 5 (idOfNat 0) negPayload = (.validationError, st1) ∧
    (updateBook st1 5 (idOfNat 0) negPayload).1.status = 400 :=
  claim6_update_validation_atomic st1 5 (idOfNat 0) negPayload
    (by decide) ⟨dune, by decide, by decide⟩ (by decide)

/-! ## Claim C5: totalPages is the ceiling of totalBooks over limit -/

/-- Claim C5 (confirmed): every successful List response carries
`totalPages = ceil(totalBooks / limit)` computed over the effective
limit, where `totalBooks` is the number of stored records; and on the
empty catalog, List with `page=1`, `limit=10` answers
`{page: 1, totalPages: 0, totalBooks: 0, books: []}`. -/
theorem claim5_totalPages_ceil :
    ∀ (st : StoreState) (pq lq : Option String) (r : ListRecord),
      (listBooks st pq lq = .ok r →
        r.totalPages = ⌈(r.totalBooks : ℚ) / ((effLimit lq : Int) : ℚ)⌉) ∧
      listBooks emptyStore (some "1") (some "10") =
        .ok { page := 1, totalPages := 0, totalBooks := 0, books := [] } := by
  intro st pq lq r
  refine ⟨?_, by decide⟩
  intro h
  simp only [listBooks] at h
  by_cases hs : (effPage pq - 1) * effLimit lq < 0
  · simp [hs] at h
  · simp only [hs, if_false] at h
    cases h
    simpa using mathCeilDiv_eq_ceil st.books.length (effLimit lq) (effLimit_ne_zero lq)

/-- Witness for claim C5: the ceiling identity instantiated on the
empty catalog with `page=1`, `limit=10`. -/
theorem claim5_totalPages_ceil_witness :
    ({ page := 1, totalPages := 0, totalBooks := 0, books := [] } : ListRecord).totalPages =
      ⌈(({ page := 1, totalPages := 0, totalBooks := 0, books := [] } : ListRecord).totalBooks : ℚ) /
        ((effLimit (some "10") : Int) : ℚ)⌉ :=
  (claim5_totalPages_ceil emptyStore (some "1") (some "10")
    { page := 1, totalPages := 0, totalBooks := 0, books := [] }).1 (by decide)

/-! ## Claim C2: the unique text field's key -/

/-- Claim C2 (code bug): the spec's example payload — valid per the
spec's data model, with the unique text field under the name `isbn`
used by the spec AND by the Swagger schema inside src/index.js — is
rejected by Create with a 400 validation error, because the schema
path of src/models/Book.js is spelled `ISBN` and strict mode drops the
unknown key `isbn`, leaving the required path unset.  The identical
payload under the key `ISBN` is accepted with 201 and round-trips
through GetByID as the claim states. -/
theorem claim2_isbn_key_mismatch :
    createBook emptyStore 0 dunePayloadLower = (.validationError, emptyStore) ∧
    (createBook emptyStore 0 dunePayloadLower).1.status = 400 ∧
    createBook emptyStore 0 dunePayloadUpper = (.created dune, st1) ∧
    (createBook emptyStore 0 dunePayloadUpper).1.status = 201 ∧
    getById st1 dune.id = .ok dune ∧
    dunePayloadLower.isbn = some "9780441013593" ∧
    dunePayloadLower.ISBN = none := by
  decide

/-! ## Claim C3: non-negativity is enforced, integrality is not -/

/-- Counterexample to claim C3 as stated: the spec's example payload
with `publishedYear := 1965.5` — not an integer, its denominator is
2 — is accepted by Create with 201, not rejected with a validation
error: the schema constrains the numeric fields only by `min: 0` and
never checks integrality. -/
theorem claim3_counterexample :
    (createBook emptyStore 0 halfPayload).1 =
      .created { dune with publishedYear := halfRat } ∧
    (createBook emptyStore 0 halfPayload).1.status = 201 ∧
    halfPayload.publishedYear = some halfRat ∧
    halfRat.den ≠ 1 ∧
    halfRat = (1965.5 : ℚ) := by
  refine ⟨by decide, by decide, by decide, by decide, ?_⟩
  unfold halfRat
  rw [Rat.mk'_eq_divInt, Rat.divInt_eq_div]
  norm_num

/-- A validated numeric field is non-negative. -/
theorem validReqNum_some_nonneg (o : Option Rat) (x : Rat)
    (h : validReqNum o = some x) : 0 ≤ x := by
  cases o with
  | none => simp [validReqNum] at h
  | some y =>
    by_cases hy : 0 ≤ y
    · simp [validReqNum, hy] at h
      exact h ▸ hy
    · simp [validReqNum, hy] at h

/-- Create preserves the non-negativity invariant of the store. -/
theorem createBook_preserves (st : StoreState) (now : Nat) (p : BookPayload)
    (h : storeNonneg st) : storeNonneg (createBook st now p).2 := by
  unfold createBook
  split
  · split
    · exact h
    · intro b hb
      rcases List.mem_append.mp hb with hb | hb
      · exact h b hb
      · rcases List.mem_singleton.mp hb with rfl
        refine ⟨?_, ?_⟩
        · exact validReqNum_some_nonneg _ _ (by assumption)
        · exact validReqNum_some_nonneg _ _ (by assumption)
  · exact h

/-- A merged record keeps the non-negativity invariant when the
original record had it and the partial document passed the update
validators. -/
theorem mergeBook_nonneg (b : StoredBook) (p : BookPayload) (now : Nat)
    (hb : bookNonneg b) (hvp : validPartial p = true) :
    bookNonneg (mergeBook b p now) := by
  unfold validPartial at hvp
  simp only [Bool.and_eq_true] at hvp
  obtain ⟨⟨⟨⟨⟨_, _⟩, _⟩, _⟩, hy⟩, hx⟩ := hvp
  constructor
  · cases hpy : p.publishedYear with
    | none => simpa [mergeBook, hpy] using hb.1
    | some y =>
      rw [hpy] at hy
      simp only [decide_eq_true_eq] at hy
      simpa [mergeBook, hpy] using hy
  · cases hpx : p.stockCount with
    | none => simpa [mergeBook, hpx] using hb.2
    | some x =>
      rw [hpx] at hx
      simp only [decide_eq_true_eq] at hx
      simpa [mergeBook, hpx] using hx

/-- Update preserves the non-negativity invariant of the store. -/
theorem updateBook_preserves (st : StoreState) (now : Nat) (id : String)
    (p : BookPayload) (h : storeNonneg st) :
    storeNonneg (updateBook st now id p).2 := by
  unfold updateBook
  split
  · exact h
  · rename_i hid
    split
    · exact h
    · rename_i hvp
      split
      · exact h
      · rename_i b hfind
        dsimp only
        split
        · exact h
        · intro c hc
          rcases List.mem_map.mp hc with ⟨d, hd, hcd⟩
          subst hcd
          by_cases hdid : (d.id == id) = true
          · rw [if_pos hdid]
            exact mergeBook_nonneg b p now
              (h b (List.mem_of_find?_eq_some hfind))
              (by revert hvp; cases validPartial p <;> simp)
          · rw [if_neg hdid]
            exact h d hd

/-- Delete preserves the non-negativity invariant of the store. -/
theorem deleteBook_preserves (st : StoreState) (id : String)
    (h : storeNonneg st) : storeNonneg (deleteBook st id).2 := by
  unfold deleteBook
  split
  · exact h
  · split
    · exact h
    · intro b hb
      exact h b (List.mem_of_mem_filter hb)

/-- A create payload with a negative `publishedYear` fails validation. -/
theorem createBook_neg_year (st : StoreState) (now : Nat) (p : BookPayload)
    (y : Rat) (hy : p.publishedYear = some y) (hneg : y < 0) :
    (createBook st now p).1 = .validationError := by
  have h4 : validReqNum p.publishedYear = none := by
    simp [validReqNum, hy, not_le.mpr hneg]
  unfold createBook
  split
  · exfalso; simp_all
  · rfl

/-- A create payload with a negative `stockCount` fails validation. -/
theorem createBook_neg_stock (st : StoreState) (now : Nat) (p : BookPayload)
    (x : Rat) (hx : p.stockCount = some x) (hneg : x < 0) :
    (createBook st now p).1 = .validationError := by
  have h6 : validReqNum p.stockCount = none := by
    simp [validReqNum, hx, not_le.mpr hneg]
  unfold createBook
  split
  · exfalso; simp_all
  · rfl

/-- An update document with a negative `publishedYear` never yields an
updated record. -/
theorem updateBook_neg_year (st : StoreState) (now : Nat) (id : String)
    (p : BookPayload) (y : Rat) (b : StoredBook)
    (hy : p.publishedYear = some y) (hneg : y < 0) :
    (updateBook st now id p).1 ≠ .updated b := by
  have hvp : validPartial p = false := by
    simp [validPartial, hy, not_le.mpr hneg]
  unfold updateBook
  by_cases hid : isValidObjectId id <;> simp [hid, hvp]

/-- An update document with a negative `stockCount` never yields an
updated record. -/
theorem updateBook_neg_stock (st : StoreState) (now : Nat) (id : String)
    (p : BookPayload) (x : Rat) (b : StoredBook)
    (hx : p.stockCount = some x) (hneg : x < 0) :
    (updateBook st now id p).1 ≠ .updated b := by
  have hvp : validPartial p = false := by
    simp [validPartial, hx, not_le.mpr hneg]
  unfold updateBook
  by_cases hid : isValidObjectId id <;> simp [hid, hvp]

/-- Claim C3 as amended: every record accepted by Create and every
merged record accepted by Update has non-negative `publishedYear` and
`stockCount` — every operation preserves the store-wide non-negativity
invariant — and a payload carrying a negative numeric field is never
accepted; but integrality is NOT enforced (see the counterexample:
1965.5 is accepted), so only non-negativity, not integrality, holds of
stored records. -/
theorem claim3_amended_nonneg_invariant :
    ∀ (st : StoreState) (op : Op) (now : Nat) (id : String) (p : BookPayload),
      (storeNonneg st → storeNonneg (runOp op st).2) ∧
      (∀ y, p.publishedYear = some y → y < 0 →
        (createBook st now p).1 = .validationError) ∧
      (∀ x, p.stockCount = some x → x < 0 →
        (createBook st now p).1 = .validationError) ∧
      (∀ y b, p.publishedYear = some y → y < 0 →
        (updateBook st now id p).1 ≠ .updated b) ∧
      (∀ x b, p.stockCount = some x → x < 0 →
        (updateBook st now id p).1 ≠ .updated b) := by
  intro st op now id p
  refine ⟨?_, ?_, ?_, ?_, ?_⟩
  · intro h
    cases op with
    | create now' p' => exact createBook_preserves st now' p' h
    | list pq lq => exact h
    | get i => exact h
    | update now' i p' => exact updateBook_preserves st now' i p' h
    | delete i => exact deleteBook_preserves st i h
    | search q => exact h
  · intro y hy hneg; exact createBook_neg_year st now p y hy hneg
  · intro x hx hneg; exact createBook_neg_stock st now p x hx hneg
  · intro y b hy hneg; exact updateBook_neg_year st now id p y b hy hneg
  · intro x b hx hneg; exact updateBook_neg_stock st now id p x b hx hneg

/-- Witness for claim C3 as amended: creating the example record on
the empty store preserves the invariant, and a negative `stockCount`
is rejected by Create and never accepted by Update. -/
theorem claim3_amended_nonneg_invariant_witness :
    storeNonneg (runOp (.create 0 dunePayloadUpper) emptyStore).2 ∧
    (createBook emptyStore 0 negPayload).1 = .validationError ∧
    (updateBook st1 5 (idOfNat 0) negPayload).1 ≠ .updated dune := by
  have h1 := claim3_amended_nonneg_invariant emptyStore
    (.create 0 dunePayloadUpper) 0 (idOfNat 0) negPayload
  have h2 := claim3_amended_nonneg_invariant st1
    (.create 0 dunePayloadUpper) 0 (idOfNat 0) negPayload
  exact ⟨h1.1 (fun b hb => absurd hb (List.not_mem_nil b)),
    h1.2.2.1 (-5) rfl (by decide),
    h2.2.2.2.2 (-5) dune rfl (by decide)⟩

/-! ## Claim C4: pagination -/

/-- The lexicographic comparison is total. -/
theorem charListLE_total :
    ∀ x y, charListLE x y = true ∨ charListLE y x = true := by
  intro x
  induction x with
  | nil => intro y; left; rfl
  | cons a as ih =>
    intro y
    cases y with
    | nil => right; rfl
    | cons b bs =>
      by_cases hab : a < b
      · left; simp [charListLE, hab]
      · by_cases hba : b < a
        · right; simp [charListLE, hba]
        · rcases ih bs with h | h
          · left; simp [charListLE, hab, hba, h]
          · right; simp [charListLE, hab, hba, h]

/-- The lexicographic comparison is transitive. -/
theorem charListLE_trans :
    ∀ x y z, charListLE x y = true → charListLE y z = true →
      charListLE x z = true := by
  intro x
  induction x with
  | nil => intro y z _ _; rfl
  | cons a as ih =>
    intro y z hxy hyz
    cases y with
    | nil => simp [charListLE] at hxy
    | cons b bs =>
      cases z with
      | nil => simp [charListLE] at hyz
      | cons c cs =>
        simp only [charListLE] at hxy hyz ⊢
        by_cases hab : a < b <;> by_cases hba : b < a
        · exact absurd hab (asymm hba)
        · -- a < b
          by_cases hbc : b < c
          · simp [lt_trans hab hbc]
          · by_cases hcb : c < b
            · simp [hbc, hcb] at hyz
            · have hbceq : b = c := le_antisymm (not_lt.mp hcb) (not_lt.mp hbc)
              subst hbceq
              simp [hab]
        · -- b < a: hxy forces a contradiction
          simp [hab, hba] at hxy
        · -- neither: a and b are equal
          have habeq : a = b := le_antisymm (not_lt.mp hba) (not_lt.mp hab)
          subst habeq
          simp only [lt_irrefl, if_false] at hxy
          by_cases hac : a < c
          · simp [hac]
          · by_cases hca : c < a
            · simp [hac, hca] at hyz
            · have haceq : a = c := le_antisymm (not_lt.mp hca) (not_lt.mp hac)
              subst haceq
              simp only [lt_irrefl, if_false] at hyz ⊢
              exact ih bs cs hxy hyz

/-- The list route's sort really sorts: the result is pairwise
title-ascending. -/
theorem sortByTitle_sorted (l : List StoredBook) :
    List.Pairwise titleLE (sortByTitle l) := by
  haveI : IsTotal StoredBook titleLE :=
    ⟨fun a b => charListLE_total a.title.data b.title.data⟩
  haveI : IsTrans StoredBook titleLE :=
    ⟨fun a b c => charListLE_trans a.title.data b.title.data c.title.data⟩
  exact List.sorted_insertionSort titleLE l

/-- Counterexample to claim C4 as stated: with the one-record store
and `limit=-1` (`parseInt("-1")` is truthy, so no default applies),
`skip = (1-1)*(-1) = 0` and the store's documented treatment of a
negative limit — up to its absolute value, in a single batch — returns
one record, which is not "at most limit records" for limit `-1`. -/
theorem claim4_counterexample :
    listBooks st1 (some "1") (some "-1") =
      .ok { page := 1, totalPages := -1, totalBooks := 1, books := [dune] } ∧
    effLimit (some "-1") = -1 ∧
    ¬ ((([dune] : List StoredBook).length : Int) ≤ effLimit (some "-1")) := by
  decide

/-- Claim C4 as amended: the effective page is 1 and the effective
limit 10 whenever the query value is missing or does not parse; when
`skip = (page-1)*limit` is non-negative the fetched records are the
title-sorted store from offset `skip`, at most `|limit|` of them (for
a non-negative limit this is "at most limit"), in ascending title
order; a negative `skip` makes the store reject the query and List
answer 500; and no pagination input ever produces a client (4xx)
error — the handler only ever answers 200 or 500. -/
theorem claim4_amended_pagination :
    ∀ (st : StoreState) (pq lq : Option String),
      (parseIntJS pq = none → effPage pq = 1) ∧
      (parseIntJS lq = none → effLimit lq = 10) ∧
      (0 ≤ (effPage pq - 1) * effLimit lq →
        listBooks st pq lq =
          .ok { page := effPage pq,
                totalPages := mathCeilDiv st.books.length (effLimit lq),
                totalBooks := st.books.length,
                books := ((sortByTitle st.books).drop
                    ((effPage pq - 1) * effLimit lq).toNat).take
                    (effLimit lq).natAbs }) ∧
      (∀ r, listBooks st pq lq = .ok r →
        r.books.length ≤ (effLimit lq).natAbs ∧
        List.Pairwise titleLE r.books) ∧
      (listBooks st pq lq).status ≠ 400 ∧
      ((listBooks st pq lq).status = 200 ∨ (listBooks st pq lq).status = 500) := by
  intro st pq lq
  refine ⟨?_, ?_, ?_, ?_, ?_, ?_⟩
  · intro h; simp [effPage, jsOrDefault, h]
  · intro h; simp [effLimit, jsOrDefault, h]
  · intro hs
    simp only [listBooks]
    rw [if_neg (not_lt.mpr hs)]
  · intro r hr
    simp only [listBooks] at hr
    split at hr
    · cases hr
    · cases hr
      constructor
      · exact List.length_take_le _ _
      · exact List.Pairwise.sublist
          ((List.take_sublist _ _).trans (List.drop_sublist _ _))
          (sortByTitle_sorted st.books)
  · simp only [listBooks]
    split <;> simp [ListResult.status]
  · simp only [listBooks]
    split <;> simp [ListResult.status]

/-- Witness for claim C4 as amended: the two-record store with both
query values missing — defaults 1 and 10 apply, the records come back
title-sorted. -/
theorem claim4_amended_pagination_witness :
    effPage none = 1 ∧ effLimit none = 10 ∧
    listBooks st2 none none =
      .ok { page := 1, totalPages := 1, totalBooks := 2,
            books := [dune, hobbit] } ∧
    List.Pairwise titleLE [dune, hobbit] ∧
    (listBooks st2 none none).status ≠ 400 := by
  have h := claim4_amended_pagination st2 none none
  have hok : listBooks st2 none none =
      .ok { page := 1, totalPages := 1, totalBooks := 2,
            books := [dune, hobbit] } :=
    (h.2.2.1 (by decide)).trans (by decide)
  exact ⟨h.1 rfl, h.2.1 rfl, hok,
    (h.2.2.2.1 _ hok).2, h.2.2.2.2.1⟩

/-! ## Claim C1: search -/

/-- A literal term compiles to its characters as literal tokens. -/
theorem compileRegex_literal (t : String) (h : isLiteralTerm t = true) :
    compileRegex t = some (t.toList.map RegexToken.lit) := by
  unfold isLiteralTerm at h
  rw [List.all_eq_true] at h
  unfold compileRegex
  have hmeta : t.toList.any isRegexMeta = false := by
    rw [List.any_eq_false]
    intro c hc
    have hcm := h c hc
    simp only [decide_eq_true_eq, Bool.or_eq_true, not_or,
      Bool.not_eq_true] at hcm
    simp [hcm.1]
  rw [hmeta]
  simp only [Bool.false_eq_true, if_false, Option.some.injEq]
  apply List.map_congr_left
  intro c hc
  have hcm := h c hc
  simp only [decide_eq_true_eq, Bool.or_eq_true, not_or,
    Bool.not_eq_true] at hcm
  have hdot : ¬ c = '.' := by
    intro hcd
    rw [hcd] at hcm
    simp at hcm
  rw [if_neg hdot]

/-- Literal tokens match a prefix exactly when the case-folded
characters are a prefix. -/
theorem toksMatchAt_lit :
    ∀ (cs xs : List Char),
      toksMatchAt (cs.map RegexToken.lit) xs =
        isPrefixAux (cs.map Char.toLower) (xs.map Char.toLower) := by
  intro cs
  induction cs with
  | nil => intro xs; rfl
  | cons c cs' ih =>
    intro xs
    cases xs with
    | nil => rfl
    | cons x xs' =>
      simp only [List.map_cons, toksMatchAt, isPrefixAux, tokMatch]
      rw [ih xs']

/-- Unanchored literal-token search is case-folded substring
occurrence. -/
theorem regexSearch_lit :
    ∀ (cs xs : List Char),
      regexSearch (cs.map RegexToken.lit) xs =
        substrAux (cs.map Char.toLower) (xs.map Char.toLower) := by
  intro cs xs
  induction xs with
  | nil => simpa [regexSearch, substrAux] using toksMatchAt_lit cs []
  | cons x xs' ih =>
    simp only [List.map_cons, regexSearch, substrAux]
    rw [ih, ← List.map_cons Char.toLower x xs', toksMatchAt_lit]

/-- On a literal term, the handler's regex test is the spec's
case-insensitive substring test. -/
theorem regexTest_lit (term s : String) :
    regexTest (term.toList.map RegexToken.lit) s = ciSubstring term s := by
  unfold regexTest ciSubstring toLowerList
  exact regexSearch_lit term.toList s.toList

/-- Counterexample to claim C1 as stated: the non-empty term `"."` is
interpreted as a regular expression, so on the one-record store Search
returns the `dune` record although `"."` does not occur as a literal
substring of any of its three fields — the spec-side match set is
empty. -/
theorem claim1_counterexample :
    searchBooks st1 (some ".") = .ok [dune] ∧
    specSearchMatches st1 "." = [] ∧
    ("." : String) ≠ "" := by
  decide

/-- Claim C1 as amended: for every non-empty term containing neither a
regex metacharacter nor `.`, Search returns exactly the stored books
(at most 10) whose `title`, `author` or `genre` contains the term as a
case-insensitive literal substring, and no such term produces an
error; but the term is interpreted as a JavaScript regular expression,
so `.` matches any character and an invalid pattern such as `"("`
raises a SyntaxError that the handler answers with a 500 server
error. -/
theorem claim1_amended_search :
    ∀ (st : StoreState) (term : String),
      (term ≠ "" → isLiteralTerm term = true →
        searchBooks st (some term) = .ok (specSearchMatches st term)) ∧
      searchBooks st (some "(") = .serverError ∧
      (searchBooks st (some "(")).status = 500 := by
  intro st term
  refine ⟨?_, rfl, rfl⟩
  intro hne hlit
  simp only [searchBooks, if_neg hne, compileRegex_literal term hlit]
  unfold specSearchMatches
  congr 1
  congr 1
  apply List.filter_congr
  intro b _
  rw [regexTest_lit, regexTest_lit, regexTest_lit]

/-- Witness for claim C1 as amended: the literal term `"dune"` finds
the `dune` record case-insensitively, and the invalid pattern `"("`
yields the 500 server error. -/
theorem claim1_amended_search_witness :
    searchBooks st1 (some "dune") = .ok (specSearchMatches st1 "dune") ∧
    searchBooks st1 (some "(") = .serverError :=
  ⟨(claim1_amended_search st1 "dune").1 (by decide) (by decide),
   (claim1_amended_search st1 "(").2.1⟩
